import Mathlib

/-!
# Universal-Quantum-Notebook — verification of the notebook session core

Shallow embedding of the notebook session state machine implemented by the
`Notebook` React component (`src/unnamed/part_001`, lines 596–717) together
with the pieces of the data model it manipulates (`EnhancedCell`,
`Notification`, `ExpandedCellType` from the same file).

Modelling conventions:
* `generateUniqueId` (Date.now + Math.random) is modelled by a `nextId`
  counter held in the session state; freshness of the counter relative to
  the ids already in the store is an explicit hypothesis where needed.
* React `setX` state updates are modelled by explicit state passing: each
  façade operation is a function `NotebookState → NotebookState` (or, for
  `executeCell`, a pair of the synchronous new state and a pending
  asynchronous completion).
* `setTimeout` in `addNotification` (the 5000 ms notification decay) is
  modelled by a queue of pending fire times `decayTimers` plus an
  `elapseTo` function that runs every timer due by a given instant; each
  fired timer performs `prev.slice(1)`, i.e. drops the head of the
  notification queue, exactly as the source callback does.
* `setTimeout` in `executeCell` (the mock 800 ms execution) is modelled by
  a `PendingExecution` value capturing the cell id and the `cells` snapshot
  the source closure captures; `completeExecution` applies the deferred
  update.
* TypeScript `Partial<EnhancedCell>` update records are modelled by
  `CellUpdates`, a record of `Option` fields; the JS spread
  `{ ...c, ...updates }` is `applyUpdates`, which overrides exactly the
  fields present in the update.
* Optional cell fields that the source defaults on read
  (`executionCount || 0`, missing `status` rendered as idle, missing
  `outputs` as empty) are modelled with those defaults inlined; `content`
  and `metadata` are opaque payloads modelled as `String`.
-/

/-- `ExpandedCellType` from the source (part_001 lines 10–27). -/
inductive ExpandedCellType where
  | code
  | markdown
  | data
  | visualization
  | ai_chat
  | sql
  | drawing
  | form
  | web_component
  | file_browser
  | terminal
  | embed
  | timeline
  | map
  | audio
  | video
  deriving DecidableEq, Repr

/-- The string tag of a cell type, as used in notification messages
(`Added ${type} cell`). -/
def cellTypeName : ExpandedCellType → String
  | .code => "code"
  | .markdown => "markdown"
  | .data => "data"
  | .visualization => "visualization"
  | .ai_chat => "ai_chat"
  | .sql => "sql"
  | .drawing => "drawing"
  | .form => "form"
  | .web_component => "web_component"
  | .file_browser => "file_browser"
  | .terminal => "terminal"
  | .embed => "embed"
  | .timeline => "timeline"
  | .map => "map"
  | .audio => "audio"
  | .video => "video"

/-- The runnable-type test of the "Run Cell" control
(part_001 line 413: `['code', 'ai_chat', 'sql', 'form'].includes(cellType)`). -/
def runnableType (t : ExpandedCellType) : Bool :=
  t == .code || t == .ai_chat || t == .sql || t == .form

/-- Cell execution status (part_001 line 34). -/
inductive CellStatus where
  | idle
  | running
  | error
  | success
  | queued
  deriving DecidableEq, Repr

/-- One execution output record, e.g.
`{ type: 'stream', name: 'stdout', text: ... }`. -/
structure Output where
  type : String
  name : String
  text : String
  deriving DecidableEq, Repr

/-- `executionTime` record (part_001 line 47); `stop` models the source's
`end` field, which is a reserved word here. -/
structure ExecutionTime where
  start : String
  stop : String
  durationMs : Nat
  deriving DecidableEq, Repr

/-- `EnhancedCell` (part_001 lines 29–52), restricted to the fields the
session core reads or writes. `content` and `metadata` are opaque payloads. -/
structure EnhancedCell where
  id : Nat
  type : ExpandedCellType
  content : String
  metadata : String
  outputs : List Output
  executionCount : Nat
  status : CellStatus
  executionTime : Option ExecutionTime
  deriving DecidableEq, Repr

/-- Notification type tag (part_001 line 112). -/
inductive NotifType where
  | info
  | warning
  | error
  | success
  | system
  | collaborator
  deriving DecidableEq, Repr

/-- `Notification` (part_001 lines 110–117); `timestamp` is a numeric
instant standing for the ISO string `new Date().toISOString()`. -/
structure Notification where
  id : Nat
  type : NotifType
  message : String
  timestamp : Nat
  read : Bool
  deriving DecidableEq, Repr

/-- The session state owned by the `Notebook` provider: the cell store,
active-cell selection, the notification queue with its pending decay
timers, the id counter modelling `generateUniqueId`, and the current time
modelling `Date.now`. -/
structure NotebookState where
  cells : List EnhancedCell
  activeCellId : Option Nat
  notifications : List Notification
  decayTimers : List Nat
  nextId : Nat
  now : Nat
  deriving DecidableEq, Repr

/-- `addNotification` (part_001 lines 618–621): appends a notification with
a fresh id, the current timestamp and `read = false`, and schedules
`prev.slice(1)` 5000 ms from now. -/
def addNotification (ty : NotifType) (message : String) (s : NotebookState) :
    NotebookState :=
  { s with
    notifications := s.notifications ++
      [{ id := s.nextId, type := ty, message := message,
         timestamp := s.now, read := false }]
    decayTimers := s.decayTimers ++ [s.now + 5000]
    nextId := s.nextId + 1 }

/-- The passage of wall-clock time with no timer firing in between; models
`Date.now()` advancing between two synchronous façade calls. -/
def advanceTime (d : Nat) (s : NotebookState) : NotebookState :=
  { s with now := s.now + d }

/-- Runs the event loop up to instant `tgt`: every pending decay timer due
by `tgt` fires, in order, and each firing performs `prev.slice(1)` on the
notification queue (so `n` fired timers drop the `n` oldest entries). -/
def elapseTo (tgt : Nat) (s : NotebookState) : NotebookState :=
  { s with
    now := tgt
    notifications := s.notifications.drop (s.decayTimers.filter (fun t => t ≤ tgt)).length
    decayTimers := s.decayTimers.filter (fun t => ¬ t ≤ tgt) }

/-- `Partial<EnhancedCell>` as passed to `updateCell`: each field is
present (`some`) or absent (`none`). The source type includes `id` and
`type`, so the update record does too. -/
structure CellUpdates where
  id : Option Nat := none
  type : Option ExpandedCellType := none
  content : Option String := none
  metadata : Option String := none
  outputs : Option (List Output) := none
  executionCount : Option Nat := none
  status : Option CellStatus := none
  executionTime : Option (Option ExecutionTime) := none
  deriving DecidableEq, Repr

/-- The JS spread `{ ...c, ...updates }`: every field present in the update
overrides the cell's field. -/
def applyUpdates (u : CellUpdates) (c : EnhancedCell) : EnhancedCell :=
  { id := u.id.getD c.id
    type := u.type.getD c.type
    content := u.content.getD c.content
    metadata := u.metadata.getD c.metadata
    outputs := u.outputs.getD c.outputs
    executionCount := u.executionCount.getD c.executionCount
    status := u.status.getD c.status
    executionTime := u.executionTime.getD c.executionTime }

/-- `updateCell` (part_001 lines 623–625):
`setCells(prev => prev.map(c => c.id === cellId ? { ...c, ...updates } : c))`.
The `pushToHistory` flag is accepted and ignored, as in the source.
No notification is emitted. -/
def updateCell (cellId : Nat) (updates : CellUpdates) (pushToHistory : Bool)
    (s : NotebookState) : NotebookState :=
  { s with
    cells := s.cells.map (fun c => if c.id == cellId then applyUpdates updates c else c) }

/-- The deferred work of `executeCell`'s `setTimeout` callback: the target
cell id and the `cells` snapshot the source closure captured. -/
structure PendingExecution where
  cellId : Nat
  snapshotCells : List EnhancedCell
  deriving DecidableEq, Repr

/-- The mock output produced by the source's execution stub. -/
def mockOutput : Output :=
  { type := "stream", name := "stdout",
    text := "Execution completed successfully.\n[Result]: 42" }

/-- The mock execution time produced by the source's execution stub. -/
def mockExecTime : ExecutionTime :=
  { start := "", stop := "", durationMs := 450 }

/-- `executeCell` (part_001 lines 627–640), synchronous part: sets the
cell's status to `running`, emits one info notification, and returns the
pending asynchronous completion. There is no existence or type check. -/
def executeCell (cellId : Nat) (s : NotebookState) :
    NotebookState × PendingExecution :=
  let snapshot := s.cells
  let s1 := updateCell cellId { status := some .running } false s
  let s2 := addNotification .info "Executing cell..." s1
  (s2, { cellId := cellId, snapshotCells := snapshot })

/-- The `setTimeout` callback of `executeCell`: one `updateCell` setting
status `success`, the mock outputs, `executionCount` to the snapshot's
count (`|| 0`) plus one, and the mock execution time. -/
def completeExecution (p : PendingExecution) (s : NotebookState) :
    NotebookState :=
  updateCell p.cellId
    { status := some .success
      outputs := some [mockOutput]
      executionCount := some
        (((p.snapshotCells.find? (fun c => c.id == p.cellId)).map
            (fun c => c.executionCount)).getD 0 + 1)
      executionTime := some (some mockExecTime) }
    false s

/-- `addCell` (part_001 lines 642–649): builds a cell with a fresh id,
`idle` status, empty outputs and `executionCount = 0`, appends it at the
end (`[...prev, newCell]` — the `index` argument is accepted but unused),
makes it active, and emits one info notification. -/
def addCell (ty : ExpandedCellType) (content : String) (index : Option Nat)
    (metadata : Option String) (s : NotebookState) : NotebookState :=
  let newCell : EnhancedCell :=
    { id := s.nextId, type := ty, content := content,
      metadata := metadata.getD "", outputs := [], executionCount := 0,
      status := .idle, executionTime := none }
  let s1 := { s with
    cells := s.cells ++ [newCell]
    activeCellId := some newCell.id
    nextId := s.nextId + 1 }
  addNotification .info ("Added " ++ cellTypeName ty ++ " cell") s1

/-- `deleteCell` (part_001 lines 651–654): filters the cell out of the
store and emits one info notification. `activeCellId` is not touched. -/
def deleteCell (cellId : Nat) (s : NotebookState) : NotebookState :=
  let s1 := { s with cells := s.cells.filter (fun c => c.id != cellId) }
  addNotification .info "Cell deleted" s1

/-- `moveCell` (part_001 line 656): `useCallback((from, to) => {}, [])` —
a no-op on the state, regardless of the indices. -/
def moveCell (fromIndex toIndex : Nat) (s : NotebookState) : NotebookState :=
  s

/-- The dispatch loop of `runAllCells`: `cells.forEach(c => {
if(['code', 'sql'].includes(c.type)) executeCell(c.id); })`, iterating the
captured cell snapshot and threading the state through each dispatch.
Returns the final state and the pending executions in dispatch order. -/
def runAllGo : List EnhancedCell → NotebookState →
    NotebookState × List PendingExecution
  | [], s => (s, [])
  | c :: rest, s =>
    if c.type == ExpandedCellType.code || c.type == ExpandedCellType.sql then
      let r1 := executeCell c.id s
      let r2 := runAllGo rest r1.1
      (r2.1, r1.2 :: r2.2)
    else
      runAllGo rest s

/-- `runAllCells` (part_001 lines 657–662): one info notification, then a
dispatch for each cell whose type is `code` or `sql`, in document order. -/
def runAllCells (s : NotebookState) : NotebookState × List PendingExecution :=
  runAllGo s.cells (addNotification .info "Running all cells..." s)

/-- `saveNotebook` (part_001 line 664): emits one success notification. -/
def saveNotebook (s : NotebookState) : NotebookState :=
  addNotification .success "Notebook Saved" s

/-- `loadNotebook` (part_001 line 665): `async (id) => {}` — a no-op. -/
def loadNotebook (notebookId : Nat) (s : NotebookState) : NotebookState :=
  s

/-! ## Helper lemmas -/

/-- `applyUpdates` leaves `id` alone when the update omits it. -/
lemma applyUpdates_id (u : CellUpdates) (c : EnhancedCell) (hu : u.id = none) :
    (applyUpdates u c).id = c.id := by
  simp [applyUpdates, hu]

/-- `applyUpdates` leaves `type` alone when the update omits it. -/
lemma applyUpdates_type (u : CellUpdates) (c : EnhancedCell)
    (hu : u.type = none) : (applyUpdates u c).type = c.type := by
  simp [applyUpdates, hu]

/-- The first cell matching an id, after an id-preserving update of the
matching cells, is the update of the first match. -/
lemma find?_update (l : List EnhancedCell) (cid : Nat) (u : CellUpdates)
    (hu : u.id = none) :
    (l.map (fun c => if c.id == cid then applyUpdates u c else c)).find?
        (fun c => c.id == cid)
      = (l.find? (fun c => c.id == cid)).map (applyUpdates u) := by
  rw [List.find?_map]
  have hcomp : ((fun c : EnhancedCell => c.id == cid) ∘
      (fun c => if c.id == cid then applyUpdates u c else c))
        = fun c : EnhancedCell => c.id == cid := by
    funext c
    by_cases h : c.id = cid
    · simp [Function.comp, h, applyUpdates_id u c hu]
    · simp [Function.comp, h]
  rw [hcomp]
  cases hf : l.find? (fun c => c.id == cid) with
  | none => rfl
  | some c =>
    have hc := List.find?_some hf
    simp only [Option.map_some']
    rw [if_pos hc]

/-- `updateCell` with an id matching no cell leaves the store unchanged. -/
lemma updateCell_absent (cid : Nat) (u : CellUpdates) (b : Bool)
    (s : NotebookState) (h : ∀ c ∈ s.cells, c.id ≠ cid) :
    (updateCell cid u b s).cells = s.cells := by
  simp only [updateCell]
  have hall : ∀ c ∈ s.cells,
      (if c.id == cid then applyUpdates u c else c) = id c := by
    intro c hc
    simp [h c hc]
  rw [List.map_congr_left hall, List.map_id]

/-- Each façade notification push grows the queue by exactly one. -/
lemma addNotification_length (ty : NotifType) (m : String)
    (s : NotebookState) :
    (addNotification ty m s).notifications.length
      = s.notifications.length + 1 := by
  simp [addNotification]

/-- `executeCell`'s synchronous part pushes exactly one notification. -/
lemma executeCell_length (cid : Nat) (s : NotebookState) :
    (executeCell cid s).1.notifications.length
      = s.notifications.length + 1 := by
  simp [executeCell, addNotification, updateCell]

/-- The dispatch loop emits one notification per dispatched cell. -/
lemma runAllGo_length (l : List EnhancedCell) (s : NotebookState) :
    (runAllGo l s).1.notifications.length
      = s.notifications.length
        + (l.filter (fun c =>
            c.type == ExpandedCellType.code
              || c.type == ExpandedCellType.sql)).length := by
  induction l generalizing s with
  | nil => simp [runAllGo]
  | cons a t ih =>
    by_cases h : a.type == ExpandedCellType.code
        || a.type == ExpandedCellType.sql
    · simp [runAllGo, h, ih, executeCell_length]
      omega
    · simp [runAllGo, h, ih]

/-- The dispatch loop dispatches exactly the `code`/`sql` cells, in order. -/
lemma runAllGo_dispatch (l : List EnhancedCell) (s : NotebookState) :
    (runAllGo l s).2.map (fun p => p.cellId)
      = (l.filter (fun c =>
          c.type == ExpandedCellType.code
            || c.type == ExpandedCellType.sql)).map (fun c => c.id) := by
  induction l generalizing s with
  | nil => simp [runAllGo]
  | cons a t ih =>
    by_cases h : a.type == ExpandedCellType.code
        || a.type == ExpandedCellType.sql
    · simp [runAllGo, h, ih, executeCell]
    · simp [runAllGo, h, ih]

/-- A generic small cell record for concrete scenarios. -/
def mkCell (i : Nat) (ty : ExpandedCellType) : EnhancedCell :=
  { id := i, type := ty, content := "", metadata := "", outputs := [],
    executionCount := 0, status := .idle, executionTime := none }

/-- A generic session state for concrete scenarios. -/
def mkState (cs : List EnhancedCell) (active : Option Nat) (nid : Nat) :
    NotebookState :=
  { cells := cs, activeCellId := active, notifications := [],
    decayTimers := [], nextId := nid, now := 0 }

/-! ## Concrete scenario states -/

/-- One markdown cell, id 0. -/
def c1State : NotebookState := mkState [mkCell 0 ExpandedCellType.markdown] none 1

/-- One code cell, id 0. -/
def c2State : NotebookState := mkState [mkCell 0 ExpandedCellType.code] none 1

/-- One ai_chat cell, id 0. -/
def c3State : NotebookState := mkState [mkCell 0 ExpandedCellType.ai_chat] none 1

/-- One code cell, id 0, which is active. -/
def c4State : NotebookState := mkState [mkCell 0 ExpandedCellType.code] (some 0) 1

/-- One code cell, id 0. -/
def c5State : NotebookState := mkState [mkCell 0 ExpandedCellType.code] none 1

/-- One code cell, id 0. -/
def c6State : NotebookState := mkState [mkCell 0 ExpandedCellType.code] none 1

/-- Two cells, ids 0 and 1. -/
def c7State : NotebookState :=
  mkState [mkCell 0 ExpandedCellType.code, mkCell 1 ExpandedCellType.markdown] none 2

/-- Empty session, used for the notification-decay scenario. -/
def c8State : NotebookState := mkState [] none 0

/-- One code cell, id 0. -/
def c9State : NotebookState := mkState [mkCell 0 ExpandedCellType.code] none 1

/-- One code cell, id 0. -/
def c10State : NotebookState := mkState [mkCell 0 ExpandedCellType.code] none 1

/-! ## Claim theorems -/

/-- C10: `deleteCell` on an id not present in the store leaves the cell
sequence completely unchanged, yet still appends one 'Cell deleted' info
notification to the queue. -/
theorem c10_deleteCell_absent_notifies (cid : Nat) (s : NotebookState)
    (h : ∀ c ∈ s.cells, c.id ≠ cid) :
    (deleteCell cid s).cells = s.cells ∧
    (deleteCell cid s).notifications
      = s.notifications ++
        [{ id := s.nextId, type := NotifType.info, message := "Cell deleted",
           timestamp := s.now, read := false }] := by
  constructor
  · simp only [deleteCell, addNotification]
    apply List.filter_eq_self.mpr
    intro c hc
    simp [h c hc]
  · rfl

/-- Witness for C10 at a concrete state: deleting absent id 5 from a store
holding only id 0. -/
theorem c10_witness :
    (∀ c ∈ c10State.cells, c.id ≠ 5) ∧
    ((deleteCell 5 c10State).cells = c10State.cells ∧
     (deleteCell 5 c10State).notifications
       = c10State.notifications ++
         [{ id := c10State.nextId, type := NotifType.info,
            message := "Cell deleted", timestamp := c10State.now,
            read := false }]) :=
  ⟨by decide, c10_deleteCell_absent_notifies 5 c10State (by decide)⟩

/-- C4 counterexample: deleting the active cell (id 0) removes it but
leaves `activeCellId = some 0` — the claim requires it to become none. -/
theorem c4_counterexample :
    c4State.activeCellId = some 0 ∧
    (deleteCell 0 c4State).cells = [] ∧
    (deleteCell 0 c4State).activeCellId = some 0 := by decide

/-- C4 (amended): `deleteCell` removes every cell matching the id and
leaves `activeCellId` unchanged in all cases, including when the deleted
cell is the active one. -/
theorem c4_deleteCell_keeps_active (cid : Nat) (s : NotebookState) :
    (deleteCell cid s).activeCellId = s.activeCellId ∧
    (deleteCell cid s).cells = s.cells.filter (fun c => c.id != cid) :=
  ⟨rfl, rfl⟩

/-- C7 counterexample: `moveCell 0 1` on the two-cell store `[0, 1]`
returns the state unchanged — the claim requires the cell at index 0 to be
relocated to index 1, i.e. order `[1, 0]`, and there is no `RangeError`
path at all. -/
theorem c7_counterexample :
    moveCell 0 1 c7State = c7State ∧
    (moveCell 0 1 c7State).cells.map (fun c => c.id) = [0, 1] ∧
    ((moveCell 0 1 c7State).cells.map (fun c => c.id)) ≠ [1, 0] := by decide

/-- C7 (amended): `moveCell` is a stub — for every pair of indices, valid
or not, it returns the state unchanged and never fails. -/
theorem c7_moveCell_noop (fromIndex toIndex : Nat) (s : NotebookState) :
    moveCell fromIndex toIndex s = s := rfl

/-- C1 counterexample: `executeCell` on the markdown cell id 0 does not
fail — it mutates the cell, flipping its status from idle to running and
pushing a notification, where the claim requires an `UnsupportedType`
failure with the cell unmodified. -/
theorem c1_counterexample :
    runnableType ExpandedCellType.markdown = false ∧
    c1State.cells.map (fun c => c.status) = [CellStatus.idle] ∧
    ((executeCell 0 c1State).1.cells.map (fun c => c.status))
      = [CellStatus.running] ∧
    (executeCell 0 c1State).1.notifications.length = 1 := by decide

/-- C1 (amended): `executeCell` performs no type check: on a cell whose
type is not runnable it proceeds exactly as on runnable cells — it
synchronously sets the cell's status to running (modifying it) and emits
one info notification; it never fails with `UnsupportedType`. -/
theorem c1_executeCell_no_type_check (cid : Nat) (s : NotebookState)
    (c : EnhancedCell) (h : s.cells.find? (fun x => x.id == cid) = some c)
    (hty : runnableType c.type = false) :
    ((executeCell cid s).1.cells.find? (fun x => x.id == cid))
      = some { c with status := CellStatus.running } ∧
    (executeCell cid s).1.notifications.length
      = s.notifications.length + 1 := by
  constructor
  · simp only [executeCell, addNotification, updateCell]
    rw [find?_update _ _ _ rfl, h]
    rfl
  · exact executeCell_length cid s

/-- Witness for C1 at a concrete state: the markdown cell id 0. -/
theorem c1_witness :
    (c1State.cells.find? (fun x => x.id == 0)
      = some (mkCell 0 ExpandedCellType.markdown)) ∧
    (runnableType (mkCell 0 ExpandedCellType.markdown).type = false) ∧
    (((executeCell 0 c1State).1.cells.find? (fun x => x.id == 0))
       = some { mkCell 0 ExpandedCellType.markdown with
                 status := CellStatus.running } ∧
     (executeCell 0 c1State).1.notifications.length
       = c1State.notifications.length + 1) :=
  ⟨by decide, by decide,
    c1_executeCell_no_type_check 0 c1State (mkCell 0 ExpandedCellType.markdown)
      (by decide) (by decide)⟩

/-- C2 counterexample: `addCell` with explicit index 0 on the one-cell
store `[0]` (so `0 <= 0 <= 1` is a valid position) appends the new cell
(id 1) at the end instead of inserting it at position 0, and there is no
`RangeError` path at all. -/
theorem c2_counterexample :
    ((addCell ExpandedCellType.code "x" (some 0) none c2State).cells.map
        (fun c => c.id)) = [0, 1] ∧
    ((addCell ExpandedCellType.code "x" (some 0) none c2State).cells.map
        (fun c => c.id)) ≠ [1, 0] := by decide

/-- C2 (amended): `addCell` ignores the `index` argument entirely — every
call appends the new cell at the end (no `RangeError` for any index). The
new cell has a fresh unique id (under the counter-freshness invariant),
status idle, empty outputs, `executionCount = 0`, and becomes the active
cell. -/
theorem c2_addCell_appends (ty : ExpandedCellType) (content : String)
    (index : Option Nat) (md : Option String) (s : NotebookState)
    (hfresh : ∀ c ∈ s.cells, c.id < s.nextId) :
    (addCell ty content index md s).cells
      = s.cells ++
        [{ id := s.nextId, type := ty, content := content,
           metadata := md.getD "", outputs := [], executionCount := 0,
           status := CellStatus.idle, executionTime := none }] ∧
    (addCell ty content index md s).activeCellId = some s.nextId ∧
    s.nextId ∉ s.cells.map (fun c => c.id) := by
  refine ⟨rfl, rfl, ?_⟩
  intro hmem
  obtain ⟨c, hc, hid⟩ := List.mem_map.mp hmem
  have := hfresh c hc
  omega

/-- Witness for C2 at a concrete state: explicit index 0 on a one-cell
store with fresh counter 1. -/
theorem c2_witness :
    (∀ c ∈ c2State.cells, c.id < c2State.nextId) ∧
    ((addCell ExpandedCellType.sql "y" (some 0) none c2State).cells
       = c2State.cells ++
         [{ id := c2State.nextId, type := ExpandedCellType.sql,
            content := "y", metadata := (none : Option String).getD "",
            outputs := [], executionCount := 0,
            status := CellStatus.idle, executionTime := none }] ∧
     (addCell ExpandedCellType.sql "y" (some 0) none c2State).activeCellId
       = some c2State.nextId ∧
     c2State.nextId ∉ c2State.cells.map (fun c => c.id)) :=
  ⟨by decide,
    c2_addCell_appends ExpandedCellType.sql "y" (some 0) none c2State
      (by decide)⟩

/-- C3 counterexample: on a store holding exactly one runnable cell of
type `ai_chat`, `runAllCells` dispatches no execution at all — the claim
requires a dispatch for every runnable cell, `ai_chat` included. -/
theorem c3_counterexample :
    runnableType ExpandedCellType.ai_chat = true ∧
    c3State.cells.map (fun c => c.type) = [ExpandedCellType.ai_chat] ∧
    (runAllCells c3State).2 = [] := by decide

/-- C3 (amended): `runAllCells` dispatches an execution for exactly the
cells whose type is `code` or `sql`, in document order; `ai_chat`, `form`
and every other type get no dispatch. -/
theorem c3_runAllCells_dispatch (s : NotebookState) :
    (runAllCells s).2.map (fun p => p.cellId)
      = (s.cells.filter (fun c =>
          c.type == ExpandedCellType.code
            || c.type == ExpandedCellType.sql)).map (fun c => c.id) :=
  runAllGo_dispatch s.cells _

/-- C5 counterexample: `updateCell` appends no notification at all — the
claim requires every mutating façade operation, `updateCell` included, to
append exactly one. -/
theorem c5_counterexample :
    (updateCell 0 { content := some "y" } false c5State).notifications.length
      = c5State.notifications.length ∧
    c5State.notifications.length = 0 := by decide

/-- C5 (amended): `addCell`, `deleteCell` and `saveNotebook` append exactly
one notification, and `executeCell` appends exactly one synchronously;
`runAllCells` appends one of its own plus one per dispatched `code`/`sql`
cell; `updateCell`, `moveCell` and `loadNotebook` append none. -/
theorem c5_notification_counts (s : NotebookState) (ty : ExpandedCellType)
    (content : String) (index : Option Nat) (md : Option String)
    (cid : Nat) (u : CellUpdates) (b : Bool) (i j nid : Nat) :
    (addCell ty content index md s).notifications.length
      = s.notifications.length + 1 ∧
    (updateCell cid u b s).notifications.length = s.notifications.length ∧
    (deleteCell cid s).notifications.length = s.notifications.length + 1 ∧
    (moveCell i j s).notifications.length = s.notifications.length ∧
    (executeCell cid s).1.notifications.length
      = s.notifications.length + 1 ∧
    (runAllCells s).1.notifications.length
      = s.notifications.length + 1
        + (s.cells.filter (fun c =>
            c.type == ExpandedCellType.code
              || c.type == ExpandedCellType.sql)).length ∧
    (saveNotebook s).notifications.length = s.notifications.length + 1 ∧
    (loadNotebook nid s).notifications.length = s.notifications.length := by
  refine ⟨?_, rfl, ?_, rfl, executeCell_length cid s, ?_, ?_, rfl⟩
  · simp [addCell, addNotification]
  · simp [deleteCell, addNotification]
  · rw [runAllCells, runAllGo_length]
    simp [addNotification]
  · simp [saveNotebook, addNotification]

/-- C6 counterexample: `updateCell` with an update record carrying a
`type` field changes the cell's type from code to markdown — the claim
says `updateCell` never alters `type`. -/
theorem c6_counterexample :
    c6State.cells.map (fun c => c.type) = [ExpandedCellType.code] ∧
    ((updateCell 0 { type := some ExpandedCellType.markdown } false
        c6State).cells.map (fun c => c.type))
      = [ExpandedCellType.markdown] := by decide

/-- C6 (amended): `updateCell` merges exactly the supplied fields into the
cell matching the id — including `id` and `type` when supplied, so `type`
is not immutable; when the update omits `id` and `type` those fields are
preserved for every cell, and an absent id leaves the store unchanged. -/
theorem c6_updateCell_merge (cid : Nat) (u : CellUpdates) (b : Bool)
    (s : NotebookState) (hid : u.id = none) (hty : u.type = none) :
    ((updateCell cid u b s).cells.map (fun c => (c.id, c.type))
        = s.cells.map (fun c => (c.id, c.type))) ∧
    (∀ c, s.cells.find? (fun x => x.id == cid) = some c →
        (updateCell cid u b s).cells.find? (fun x => x.id == cid)
          = some (applyUpdates u c)) ∧
    ((∀ c ∈ s.cells, c.id ≠ cid) → (updateCell cid u b s).cells = s.cells) := by
  refine ⟨?_, ?_, fun h => updateCell_absent cid u b s h⟩
  · simp only [updateCell, List.map_map]
    apply List.map_congr_left
    intro c hc
    by_cases h : c.id = cid
    · simp [Function.comp, h, applyUpdates_id u c hid,
        applyUpdates_type u c hty]
    · simp [Function.comp, h]
  · intro c hfind
    simp only [updateCell]
    rw [find?_update _ _ _ hid, hfind]
    rfl

/-- Witness for C6 at a concrete state: a content-only update of cell 0. -/
theorem c6_witness :
    (({ content := some "z" } : CellUpdates).id = none) ∧
    (({ content := some "z" } : CellUpdates).type = none) ∧
    (((updateCell 0 { content := some "z" } false c6State).cells.map
          (fun c => (c.id, c.type)))
        = c6State.cells.map (fun c => (c.id, c.type)) ∧
     (∀ c, c6State.cells.find? (fun x => x.id == 0) = some c →
        (updateCell 0 { content := some "z" } false c6State).cells.find?
            (fun x => x.id == 0)
          = some (applyUpdates { content := some "z" } c)) ∧
     ((∀ c ∈ c6State.cells, c.id ≠ 0) →
        (updateCell 0 { content := some "z" } false c6State).cells
          = c6State.cells)) :=
  ⟨rfl, rfl, c6_updateCell_merge 0 { content := some "z" } false c6State rfl rfl⟩

/-- C9: on an existing `code` cell, `executeCell` sets the cell's status
to `running` synchronously (before the deferred completion runs), and the
completion leaves the cell with status `success`, non-empty outputs,
`executionCount` incremented by exactly 1, and a recorded execution
time. -/
theorem c9_executeCell_code (cid : Nat) (s : NotebookState)
    (c : EnhancedCell) (h : s.cells.find? (fun x => x.id == cid) = some c)
    (hty : c.type = ExpandedCellType.code) :
    ((executeCell cid s).1.cells.find? (fun x => x.id == cid))
      = some { c with status := CellStatus.running } ∧
    ((completeExecution (executeCell cid s).2 (executeCell cid s).1).cells.find?
        (fun x => x.id == cid))
      = some { c with
               status := CellStatus.success
               outputs := [mockOutput]
               executionCount := c.executionCount + 1
               executionTime := some mockExecTime } ∧
    ([mockOutput] : List Output) ≠ [] := by
  have h1 : (executeCell cid s).1.cells.find? (fun x => x.id == cid)
      = some { c with status := CellStatus.running } := by
    simp only [executeCell, addNotification, updateCell]
    rw [find?_update _ _ _ rfl, h]
    rfl
  refine ⟨h1, ?_, by simp⟩
  have hp : (executeCell cid s).2
      = { cellId := cid, snapshotCells := s.cells } := rfl
  rw [hp]
  simp only [completeExecution, updateCell]
  rw [find?_update _ _ _ rfl, h1]
  simp only [Option.map_some']
  rw [h]
  rfl

/-- Witness for C9 at a concrete state: the code cell id 0. -/
theorem c9_witness :
    (c9State.cells.find? (fun x => x.id == 0)
      = some (mkCell 0 ExpandedCellType.code)) ∧
    ((mkCell 0 ExpandedCellType.code).type = ExpandedCellType.code) ∧
    (((executeCell 0 c9State).1.cells.find? (fun x => x.id == 0))
       = some { mkCell 0 ExpandedCellType.code with
                 status := CellStatus.running } ∧
     ((completeExecution (executeCell 0 c9State).2
          (executeCell 0 c9State).1).cells.find? (fun x => x.id == 0))
       = some { mkCell 0 ExpandedCellType.code with
                 status := CellStatus.success
                 outputs := [mockOutput]
                 executionCount := (mkCell 0 ExpandedCellType.code).executionCount + 1
                 executionTime := some mockExecTime } ∧
     ([mockOutput] : List Output) ≠ []) :=
  ⟨by decide, rfl,
    c9_executeCell_code 0 c9State (mkCell 0 ExpandedCellType.code)
      (by decide) rfl⟩

/-- C8: pushing three notifications in quick succession (strictly
increasing instants, starting from a session with an empty queue and no
pending timers) and letting the event loop run to 5000 ms after the first
push removes exactly one notification — the oldest — leaving the other
two present. -/
theorem c8_decay_oldest (s : NotebookState) (ty1 ty2 ty3 : NotifType)
    (m1 m2 m3 : String) (d1 d2 : Nat) (h0 : s.notifications = [])
    (ht : s.decayTimers = []) (hd1 : 0 < d1) :
    (addNotification ty3 m3 (advanceTime d2 (addNotification ty2 m2
        (advanceTime d1 (addNotification ty1 m1 s))))).notifications
      = [{ id := s.nextId, type := ty1, message := m1,
           timestamp := s.now, read := false },
         { id := s.nextId + 1, type := ty2, message := m2,
           timestamp := s.now + d1, read := false },
         { id := s.nextId + 2, type := ty3, message := m3,
           timestamp := s.now + d1 + d2, read := false }] ∧
    (elapseTo (s.now + 5000)
        (addNotification ty3 m3 (advanceTime d2 (addNotification ty2 m2
          (advanceTime d1 (addNotification ty1 m1 s)))))).notifications
      = [{ id := s.nextId + 1, type := ty2, message := m2,
           timestamp := s.now + d1, read := false },
         { id := s.nextId + 2, type := ty3, message := m3,
           timestamp := s.now + d1 + d2, read := false }] := by
  constructor
  · simp [addNotification, advanceTime, h0]
  · simp only [addNotification, advanceTime, elapseTo, h0, ht,
      List.nil_append, List.singleton_append, List.cons_append,
      List.append_nil]
    rw [show List.filter (fun t => decide (t ≤ s.now + 5000))
        [s.now + 5000, s.now + d1 + 5000, s.now + d1 + d2 + 5000]
          = [s.now + 5000] by
      simp only [List.filter_cons, List.filter_nil]
      rw [if_pos (by simp), if_neg (by simp; omega), if_neg (by simp; omega)]]
    rfl

/-- Witness for C8 at a concrete scenario: pushes at instants 0, 1 and 2
from the empty session, observed at instant 5000. -/
theorem c8_witness :
    (c8State.notifications = []) ∧ (c8State.decayTimers = []) ∧ (0 < 1) ∧
    ((addNotification NotifType.info "c" (advanceTime 1
        (addNotification NotifType.info "b" (advanceTime 1
          (addNotification NotifType.info "a" c8State))))).notifications
       = [{ id := c8State.nextId, type := NotifType.info, message := "a",
            timestamp := c8State.now, read := false },
          { id := c8State.nextId + 1, type := NotifType.info, message := "b",
            timestamp := c8State.now + 1, read := false },
          { id := c8State.nextId + 2, type := NotifType.info, message := "c",
            timestamp := c8State.now + 1 + 1, read := false }] ∧
     (elapseTo (c8State.now + 5000)
         (addNotification NotifType.info "c" (advanceTime 1
           (addNotification NotifType.info "b" (advanceTime 1
             (addNotification NotifType.info "a" c8State)))))).notifications
       = [{ id := c8State.nextId + 1, type := NotifType.info, message := "b",
            timestamp := c8State.now + 1, read := false },
          { id := c8State.nextId + 2, type := NotifType.info, message := "c",
            timestamp := c8State.now + 1 + 1, read := false }]) :=
  ⟨rfl, rfl, by decide,
    c8_decay_oldest c8State NotifType.info NotifType.info NotifType.info
      "a" "b" "c" 1 1 rfl rfl (by decide)⟩
